import Mathlib

set_option maxRecDepth 4000
set_option allowUnsafeReducibility true
attribute [semireducible] Rat.add Rat.mul Rat.sub Rat.inv Rat.div

/-!
Shallow embedding of the credit-analysis KPI pipeline
(`WakandaSolar_CreditAnalysis_dlight.py`).

Dates are modelled as proleptic-Gregorian day numbers (days since
1970-01-01, `ℤ`), months as absolute month indices (`12 * year + month - 1`,
`ℤ`), money amounts as exact rationals (`ℚ`).  Nullable columns are
`Option`.  A ratio that pandas would turn into `NaN`/`inf` (division by
zero) is modelled as `none`.  Real-valued discounting (section 8 of the
script) uses `ℝ` with `Real.rpow`, matching the float `**` operator.
-/

/-! ## Calendar arithmetic (pandas `Timestamp`/`Period` behaviour) -/

/-- Gregorian leap-year test. -/
def isLeap (y : ℤ) : Bool := (y % 4 == 0 && y % 100 != 0) || y % 400 == 0

/-- Number of days of month `m` (1..12) in year `y`. -/
def daysInMonthYM (y m : ℤ) : ℤ :=
  if m = 2 then (if isLeap y then 29 else 28)
  else if m = 4 ∨ m = 6 ∨ m = 9 ∨ m = 11 then 30
  else 31

/-- Day number (days since 1970-01-01) of the civil date `y-m-d`. -/
def daysFromCivil (y m d : ℤ) : ℤ :=
  let y2 : ℤ := y - (if m ≤ 2 then 1 else 0)
  let era : ℤ := y2.fdiv 400
  let yoe : ℤ := y2 - era * 400
  let mp : ℤ := m + (if 2 < m then -3 else 9)
  let doy : ℤ := (153 * mp + 2).fdiv 5 + d - 1
  let doe : ℤ := yoe * 365 + yoe.fdiv 4 - yoe.fdiv 100 + doy
  era * 146097 + doe - 719468

/-- Civil date `(y, m, d)` of a day number. -/
def civilFromDays (z : ℤ) : ℤ × ℤ × ℤ :=
  let z2 : ℤ := z + 719468
  let era : ℤ := z2.fdiv 146097
  let doe : ℤ := z2 - era * 146097
  let yoe : ℤ := (doe - doe.fdiv 1460 + doe.fdiv 36524 - doe.fdiv 146096).fdiv 365
  let y : ℤ := yoe + era * 400
  let doy : ℤ := doe - (365 * yoe + yoe.fdiv 4 - yoe.fdiv 100)
  let mp : ℤ := (5 * doy + 2).fdiv 153
  let d : ℤ := doy - (153 * mp + 2).fdiv 5 + 1
  let m : ℤ := mp + (if mp < 10 then 3 else -9)
  (y + (if m ≤ 2 then 1 else 0), m, d)

/-- Absolute month index (`12 * year + month - 1`) of a day number:
pandas `.dt.to_period('M')`. -/
def monthIdxOfDay (z : ℤ) : ℤ :=
  let c := civilFromDays z
  12 * c.1 + c.2.1 - 1

/-- Day-of-month (1..31) of a day number: pandas `.day`. -/
def dayOfMonth (z : ℤ) : ℤ := (civilFromDays z).2.2

/-- Number of days of the month with absolute index `mi`:
pandas `Period.days_in_month`. -/
def daysInMonthIdx (mi : ℤ) : ℤ := daysInMonthYM (mi.fdiv 12) (mi.emod 12 + 1)

/-- Day number of the first day of the month with absolute index `mi`:
pandas `Period.to_timestamp()`. -/
def firstOfMonthIdx (mi : ℤ) : ℤ := daysFromCivil (mi.fdiv 12) (mi.emod 12 + 1) 1

/-! ## Rounding (Python `round(x, 2)`, banker's rounding) -/

/-- Floor of a rational, via flooring integer division. -/
def ratFloor (q : ℚ) : ℤ := q.num.fdiv q.den

/-- Round to the nearest integer, ties to even (Python `round`). -/
def roundHalfEven (q : ℚ) : ℤ :=
  let f : ℤ := ratFloor q
  let r : ℚ := q - f
  if r < 1/2 then f
  else if 1/2 < r then f + 1
  else if f % 2 = 0 then f else f + 1

/-- `round(x, 2)`: round to two decimal places. -/
def round2 (q : ℚ) : ℚ := (roundHalfEven (q * 100) : ℚ) / 100

/-! ## Data model (cleaned `contracts_df` / `payments_df` rows) -/

/-- One cleaned contract record (post rename/dedup/type coercion). -/
structure Contract where
  contract_id : ℕ
  company : Option ℕ
  contract_type : String
  registration_date : Option ℤ
  contract_tenor_days : Option ℕ
  daily_payment_amount_usd : ℚ
  down_payment_usd : ℚ
  contract_value_usd : ℚ
  product_family : ℕ
  baseunit_productname : ℕ
deriving DecidableEq

/-- One cleaned payment record (`total_paid` already 0-filled). -/
structure Payment where
  contract_id : ℕ
  pay_month : Option ℤ
  total_paid : ℚ
deriving DecidableEq

/-- A payment record after the company-propagation merge (script step 5). -/
structure PaymentC where
  contract_id : ℕ
  pay_month : Option ℤ
  total_paid : ℚ
  company : Option ℕ
deriving DecidableEq

/-- One row of the expected-vs-actual schedule (`trend_df`). -/
structure TrendRow where
  contract_id : ℕ
  company : Option ℕ
  month : ℤ
  expected_payment : ℚ
  total_paid : ℚ
deriving DecidableEq

/-- First contract record with the given id (contracts are deduplicated
keeping the first occurrence, so merges on `contract_id` match this row). -/
def findContract (cs : List Contract) (cid : ℕ) : Option Contract :=
  cs.find? (fun c => decide (c.contract_id = cid))

/-- Script step 5: left-merge `company` from the contracts onto every
payment row (missing contract or null company give a null company). -/
def payments_with_company (ps : List Payment) (cs : List Contract) : List PaymentC :=
  ps.map (fun p =>
    ⟨p.contract_id, p.pay_month, p.total_paid,
      (findContract cs p.contract_id).bind (fun c => c.company)⟩)

/-- Follows the spec's words (§4.2): after the company merge, if no
non-null company value is present, the join is redone from scratch using
only the `contract_id` and `company` columns; otherwise the first join's
result is kept. -/
def payments_with_company_retry (ps : List Payment) (cs : List Contract) : List PaymentC :=
  let first := payments_with_company ps cs
  if first.all (fun p => p.company.isNone) then
    payments_with_company ps cs
  else
    first

/-! ## Schedule builder (script section 6.1) -/

/-- `start_month`: registration month of a contract. -/
def start_month (c : Contract) : Option ℤ :=
  c.registration_date.map monthIdxOfDay

/-- `end_month`: month containing `registration_date + contract_tenor_days`
(day-granularity addition, then truncation to month). -/
def end_month (c : Contract) : Option ℤ :=
  match c.registration_date, c.contract_tenor_days with
  | some rd, some t => some (monthIdxOfDay (rd + (t : ℤ)))
  | _, _ => none

/-- `pd.period_range(s, e)`: all month indices from `s` to `e` inclusive
(empty when `e < s`). -/
def month_range (s e : ℤ) : List ℤ :=
  (List.range (e + 1 - s).toNat).map (fun i : ℕ => s + (i : ℤ))

/-- The expected-payment schedule rows generated for one contract:
one row per month of `period_range(start_month, end_month)` carrying
`round(daily_payment_amount_usd * days_in_month, 2)`; no rows when the
start or end month is null. -/
def expected_rows_for (c : Contract) : List TrendRow :=
  match start_month c, end_month c with
  | some s, some e =>
      (month_range s e).map (fun m =>
        ⟨c.contract_id, c.company, m,
          round2 (c.daily_payment_amount_usd * (daysInMonthIdx m : ℚ)), 0⟩)
  | _, _ => []

/-- `expected_df`: schedule rows of all contracts. -/
def expected_df (cs : List Contract) : List TrendRow :=
  cs.flatMap expected_rows_for

/-- Month index of a payment (`pay_month` truncated to month). -/
def pay_month_idx (p : PaymentC) : Option ℤ := p.pay_month.map monthIdxOfDay

/-- Actual amount matched to a schedule row: the rounded sum of the
payments grouped on `(contract_id, company, month)` (groups whose company
or month is null are dropped by pandas `groupby`), 0 when no group
matches.  The script rounds the group sum and rounds again after the
fill; a single rounding of the raw sum is the same value. -/
def actual_month_paid (ps : List PaymentC) (cid : ℕ) (co : Option ℕ) (m : ℤ) : ℚ :=
  round2 (((ps.filter (fun p =>
    decide (p.contract_id = cid ∧ p.company = co ∧ p.company ≠ none ∧
      pay_month_idx p = some m))).map (fun p => p.total_paid)).sum)

/-- `trend_df` before the FINANCED filter: expected rows left-joined with
the monthly actual sums. -/
def trend_df_all (cs : List Contract) (ps : List Payment) : List TrendRow :=
  (expected_df cs).map (fun r =>
    { r with total_paid :=
        actual_month_paid (payments_with_company ps cs) r.contract_id r.company r.month })

/-- `financed_contracts`: ids of contracts with `contract_type == FINANCED`. -/
def financed_contracts (cs : List Contract) : List ℕ :=
  (cs.filter (fun c => decide (c.contract_type = "FINANCED"))).map (fun c => c.contract_id)

/-- `trend_df` after script section 6.2: restricted to FINANCED contracts. -/
def trend_df_fin (cs : List Contract) (ps : List Payment) : List TrendRow :=
  (trend_df_all cs ps).filter (fun r => decide (r.contract_id ∈ financed_contracts cs))

/-! ## Collection / repayment rate (script sections 6.2, 6.3) -/

/-- `collection_rate` column: `(total_paid / expected_payment) * 100`
rounded to 2 decimals; pandas produces `NaN`/`inf` (here `none`) when the
denominator is 0. -/
def collection_rate (paid expected : ℚ) : Option ℚ :=
  if expected = 0 then none else some (round2 (paid / expected * 100))

/-- `repayment_rate` column: `(cum_total_paid / cum_expected_payment) * 100`
rounded to 2 decimals; `NaN`/`inf` (here `none`) when the denominator is 0. -/
def repayment_rate (cumPaid cumExpected : ℚ) : Option ℚ :=
  if cumExpected = 0 then none else some (round2 (cumPaid / cumExpected * 100))

/-- One row of `trend_summary` (company × month aggregation). -/
structure SummaryRow where
  company : ℕ
  month : ℤ
  expected_payment : ℚ
  total_paid : ℚ
  rate : Option ℚ
deriving DecidableEq

/-- The `(company, month)` group keys of a trend table (pandas `groupby`
drops null keys). -/
def summary_keys (rows : List TrendRow) : List (ℕ × ℤ) :=
  (rows.filterMap (fun r => r.company.map (fun co => (co, r.month)))).dedup

/-- Month index of December 2025, the fixed reporting horizon
(`month <= pd.Timestamp('2025-12-31')`). -/
def horizon_month : ℤ := 12 * 2025 + 11

/-- `trend_summary`: expected/actual sums and collection rate per
`(company, month)`, truncated to months up to the reporting horizon. -/
def trend_summary (cs : List Contract) (ps : List Payment) : List SummaryRow :=
  ((summary_keys (trend_df_fin cs ps)).map (fun k =>
    let g := (trend_df_fin cs ps).filter (fun r =>
      decide (r.company = some k.1 ∧ r.month = k.2))
    let e := (g.map (fun r => r.expected_payment)).sum
    let p := (g.map (fun r => r.total_paid)).sum
    (⟨k.1, k.2, round2 e, round2 p, collection_rate p e⟩ : SummaryRow))).filter
    (fun s => decide (s.month ≤ horizon_month))

/-! ## Portfolio at risk (script sections 6.4, 6.5) -/

/-- The consecutive-miss scan: walking rows in order with loop-carried
state `missed`, a month with `total_paid < expected_payment` increments
the counter, any other month resets it to 0. -/
def consec_missed : List TrendRow → ℕ → List ℕ
  | [], _ => []
  | r :: rs, missed =>
      (if r.total_paid < r.expected_payment then missed + 1 else 0)
        :: consec_missed rs (if r.total_paid < r.expected_payment then missed + 1 else 0)

/-- `par_bucket`: classify a consecutive-miss count. -/
def par_bucket (months : ℕ) : String :=
  if months ≥ 4 then "PAR120"
  else if months = 3 then "PAR90"
  else if months = 2 then "PAR60"
  else if months = 1 then "PAR30"
  else "Current"

/-- The (month-ordered) financed schedule rows of one contract, as walked
by the PAR loop. -/
def contract_trend (cs : List Contract) (ps : List Payment) (cid : ℕ) : List TrendRow :=
  (trend_df_fin cs ps).filter (fun r => decide (r.contract_id = cid))

/-- The consecutive-miss counters of one contract's schedule (initial
state 0). -/
def contract_consec (cs : List Contract) (ps : List Payment) (cid : ℕ) : List ℕ :=
  consec_missed (contract_trend cs ps cid) 0

/-- PAR percentage column: `np.where(Total_PAR > 0, bucket/Total_PAR*100, 0)`
rounded to 2 decimals. -/
def par_pct (bucketAmt totalPAR : ℚ) : ℚ :=
  if 0 < totalPAR then round2 (bucketAmt / totalPAR * 100) else 0

/-! ## Vintage filter (script section 6.6) -/

/-- `months_on_book`: whole 30-day periods between the schedule month's
first day and the registration date (floor division, as pandas `//`). -/
def months_on_book (m rd : ℤ) : ℤ := (firstOfMonthIdx m - rd).fdiv 30

/-- `trend_df` after the vintage filter
(`0 <= months_on_book <= contract_tenor_days // 30`); rows whose contract
cannot be matched or has null fields fail the comparison (pandas `NaN`
comparisons are false). -/
def trend_df_vintage (cs : List Contract) (ps : List Payment) : List TrendRow :=
  (trend_df_fin cs ps).filter (fun r =>
    match findContract cs r.contract_id with
    | some c =>
        match c.registration_date, c.contract_tenor_days with
        | some rd, some t =>
            decide (0 ≤ months_on_book r.month rd ∧
              months_on_book r.month rd ≤ ((t / 30 : ℕ) : ℤ))
        | _, _ => false
    | none => false)

/-! ## First payment default (script sections 6.8, 6.9) -/

/-- `FPD_CUTOFF_DAY`. -/
def FPD_CUTOFF_DAY : ℤ := 5

/-- `get_fpd_month`: null for a null registration date; the next month
when the registration day is at most the cutoff, the month after next
otherwise (`MonthBegin(1)` / `MonthBegin(2)`). -/
def get_fpd_month (reg_date : Option ℤ) : Option ℤ :=
  reg_date.map (fun rd =>
    monthIdxOfDay rd + (if dayOfMonth rd ≤ FPD_CUTOFF_DAY then 1 else 2))

/-- The FINANCED contract records. -/
def financed_df (cs : List Contract) : List Contract :=
  cs.filter (fun c => decide (c.contract_type = "FINANCED"))

/-- `fpd_payments`: payments inner-joined to the financed contracts on
`(contract_id, company)` and kept only when the payment month equals the
contract's FPD month (a null on either side never compares equal). -/
def fpd_payments (cs : List Contract) (ps : List Payment) : List PaymentC :=
  (payments_with_company ps cs).filter (fun p =>
    match (financed_df cs).find? (fun c =>
      decide (c.contract_id = p.contract_id ∧ c.company = p.company)) with
    | some c =>
        decide (pay_month_idx p ≠ none ∧
          pay_month_idx p = get_fpd_month c.registration_date)
    | none => false)

/-- `fpd_total_paid` of a contract: summed FPD-month payments, 0 when the
left join finds none. -/
def fpd_total_paid (cs : List Contract) (ps : List Payment) (cid : ℕ) : ℚ :=
  (((fpd_payments cs ps).filter (fun p => decide (p.contract_id = cid))).map
    (fun p => p.total_paid)).sum

/-- One row of `fpd_expected` (vintage-filtered schedule row inner-joined
to a financed contract at its FPD month). -/
structure FpdExpRow where
  contract_id : ℕ
  expected_payment : ℚ
  company : Option ℕ
  registration_date : Option ℤ
  fpd_month : ℤ
deriving DecidableEq

/-- `fpd_expected`: schedule rows (after the vintage filter) matching a
financed contract on `(contract_id, company)` at exactly the contract's
FPD month. -/
def fpd_expected (cs : List Contract) (ps : List Payment) : List FpdExpRow :=
  (trend_df_vintage cs ps).filterMap (fun r =>
    match (financed_df cs).find? (fun c =>
      decide (c.contract_id = r.contract_id ∧ c.company = r.company)) with
    | some c =>
        if get_fpd_month c.registration_date = some r.month then
          some ⟨r.contract_id, r.expected_payment, r.company,
            c.registration_date, r.month⟩
        else none
    | none => none)

/-- One row of `fpd_final`. -/
structure FpdRow where
  contract_id : ℕ
  expected_payment : ℚ
  company : Option ℕ
  reg_month : Option ℤ
  fpd_month : ℤ
  fpd_paid : ℚ
  FPD_flag : Bool
  FPD_zero_flag : Bool
deriving DecidableEq

/-- `fpd_final`: `fpd_expected` left-joined with the FPD-month payment
sums (missing sum filled with 0), flagged `FPD` when the sum is strictly
below the expected payment and `FPD_zero` when the sum is exactly 0. -/
def fpd_final (cs : List Contract) (ps : List Payment) : List FpdRow :=
  (fpd_expected cs ps).map (fun e =>
    let paid := fpd_total_paid cs ps e.contract_id
    ⟨e.contract_id, e.expected_payment, e.company,
      e.registration_date.map monthIdxOfDay, e.fpd_month, paid,
      decide (paid < e.expected_payment), decide (paid = 0)⟩)

/-- `FPD_rate` / `FPD_zero_rate` column: `count / contracts * 100` rounded
to 2 decimals (`none` for the impossible 0 denominator). -/
def FPD_rate (count contracts : ℕ) : Option ℚ :=
  if contracts = 0 then none
  else some (round2 ((count : ℚ) / (contracts : ℚ) * 100))

/-- Grouping key of an `fpd_final` row (null keys are dropped by
`groupby`). -/
def fpd_key (f : FpdRow) : Option (ℕ × ℤ × ℤ) :=
  match f.company, f.reg_month with
  | some co, some rm => some (co, rm, f.fpd_month)
  | _, _ => none

/-- One row of `FPD_rate_trend`. -/
structure FpdGroup where
  company : ℕ
  reg_month : ℤ
  fpd_month : ℤ
  contracts : ℕ
  FPD_count : ℕ
  FPD_zero_count : ℕ
  FPD_rate_val : Option ℚ
  FPD_zero_rate_val : Option ℚ
deriving DecidableEq

/-- `FPD_rate_trend`: contract counts, FPD counts and rates per
`(company, reg_month, fpd_month)`. -/
def FPD_rate_trend (cs : List Contract) (ps : List Payment) : List FpdGroup :=
  (((fpd_final cs ps).filterMap fpd_key).dedup).map (fun k =>
    let g := (fpd_final cs ps).filter (fun f => decide (fpd_key f = some k))
    ⟨k.1, k.2.1, k.2.2, g.length,
      (g.filter (fun f => f.FPD_flag)).length,
      (g.filter (fun f => f.FPD_zero_flag)).length,
      FPD_rate (g.filter (fun f => f.FPD_flag)).length g.length,
      FPD_rate (g.filter (fun f => f.FPD_zero_flag)).length g.length⟩)

/-! ## Cash flow (script section 7) -/

/-- Grouping key of a schedule row for the cash-flow tables:
`(company, product_family, baseunit_productname, month)`; product fields
come from the contract (left merge on `contract_id`); a null company or
unmatched contract is dropped by `groupby`. -/
def cash_key (cs : List Contract) (r : TrendRow) : Option (ℕ × ℕ × ℕ × ℤ) :=
  (findContract cs r.contract_id).bind (fun c =>
    r.company.map (fun co => (co, c.product_family, c.baseunit_productname, r.month)))

/-- `expected_inflows` amount for one group key: the script groups the
post-filter `trend_df`, so only FINANCED (and vintage-retained) schedule
rows contribute.  An absent group amounts to 0. -/
def expected_inflow_total (cs : List Contract) (ps : List Payment)
    (k : ℕ × ℕ × ℕ × ℤ) : ℚ :=
  (((trend_df_vintage cs ps).filter (fun r => decide (cash_key cs r = some k))).map
    (fun r => r.expected_payment)).sum

/-- `actual_inflows` amount for one group key. -/
def actual_inflow_total (cs : List Contract) (ps : List Payment)
    (k : ℕ × ℕ × ℕ × ℤ) : ℚ :=
  (((trend_df_vintage cs ps).filter (fun r => decide (cash_key cs r = some k))).map
    (fun r => r.total_paid)).sum

/-- Follows the spec's words (§4.5): expected inflows summed from the
ScheduleEntry set of all contract types, not just FINANCED. -/
def expected_inflow_total_all_types (cs : List Contract) (ps : List Payment)
    (k : ℕ × ℕ × ℕ × ℤ) : ℚ :=
  (((trend_df_all cs ps).filter (fun r => decide (cash_key cs r = some k))).map
    (fun r => r.expected_payment)).sum

/-- Grouping key of a contract for the disbursements table
(`company, product_family, baseunit_productname, registration month`). -/
def disb_key (c : Contract) : Option (ℕ × ℕ × ℕ × ℤ) :=
  match c.company, c.registration_date with
  | some co, some rd => some (co, c.product_family, c.baseunit_productname, monthIdxOfDay rd)
  | _, _ => none

/-- `disbursements` amount for one group key: summed `contract_value_usd`
over all contracts (no contract-type filter). -/
def disbursed_total (cs : List Contract) (k : ℕ × ℕ × ℕ × ℤ) : ℚ :=
  ((cs.filter (fun c => decide (disb_key c = some k))).map
    (fun c => c.contract_value_usd)).sum

/-! ## Projection and valuation (script section 8) -/

/-- The fixed 12-month projection window: August 2025 .. July 2026. -/
def projection_window : List ℤ :=
  (List.range 12).map (fun i : ℕ => (12 * 2025 + 7 : ℤ) + (i : ℤ))

/-- A contract is active in a projection month when
`registration_date <= month-start <= registration_date + tenor_days`
(false when either field is null). -/
def projection_active (c : Contract) (m : ℤ) : Bool :=
  match c.registration_date, c.contract_tenor_days with
  | some rd, some t =>
      decide (rd ≤ firstOfMonthIdx m ∧ firstOfMonthIdx m ≤ rd + (t : ℤ))
  | _, _ => false

/-- The projected cash flows accrued in one month: one entry per active
contract, `daily_payment_amount_usd * days_in_month`. -/
def projection_month_cfs (cs : List Contract) (m : ℤ) : List ℚ :=
  cs.filterMap (fun c =>
    if projection_active c m then
      some (c.daily_payment_amount_usd * (daysInMonthIdx m : ℚ))
    else none)

/-- `monthly_projection`: per-month totals (rounded to 2 decimals) of the
projected cash flows.  A month with no active contract produces no
projection row at all, so it is absent from this list (pandas `groupby`
only emits observed keys). -/
def monthly_projection (cs : List Contract) : List (ℤ × ℚ) :=
  projection_window.filterMap (fun m =>
    let l := projection_month_cfs cs m
    if l.isEmpty then none else some (m, round2 l.sum))

/-- `monthly_discount`: the 15% annual rate converted to a monthly rate,
`(1 + 0.15) ** (1/12) - 1`. -/
noncomputable def monthly_discount : ℝ :=
  (1 + 0.15) ^ ((1 : ℝ) / 12) - 1

/-- `discount_factor` for 1-indexed position `i`:
`(1 + monthly_discount) ** -i`. -/
noncomputable def discount_factor (i : ℕ) : ℝ :=
  (1 + monthly_discount) ^ (-(i : ℝ))

/-- The discount factor the script assigns to projection month `m`: the
list `[(1+monthly_discount) ** -i for i in range(1, len+1)]` is zipped
against the rows of `monthly_projection`, so the factor is determined by
the month's position among the months that are present. -/
noncomputable def discount_factor_at (cs : List Contract) (m : ℤ) : Option ℝ :=
  (((monthly_projection cs).map (fun p => p.1)).findIdx? (fun x => decide (x = m))).map
    (fun i => discount_factor (i + 1))

/-- `portfolio_value`: sum of the discounted monthly projected cash flows. -/
noncomputable def portfolio_value (cs : List Contract) : ℝ :=
  (((monthly_projection cs).enum).map (fun p =>
    ((p.2.2 : ℚ) : ℝ) * discount_factor (p.1 + 1))).sum

/-- `PAR_bucket` column restricted to one contract's schedule. -/
def contract_par_buckets (cs : List Contract) (ps : List Payment) (cid : ℕ) : List String :=
  (contract_consec cs ps cid).map par_bucket

/-! ## Concrete test fixtures -/

/-- A financed contract registered 2024-01-03 (day 3, at most the cutoff),
tenor 60 days, 1 USD/day. -/
def exFpd_contract : Contract :=
  ⟨1, some 0, "FINANCED", some (daysFromCivil 2024 1 3), some 60, 1, 0, 100, 0, 0⟩

def exFpd_cs : List Contract := [exFpd_contract]

/-- One payment of 10 USD dated 2024-02-20 (inside the FPD month). -/
def exFpd_ps : List Payment := [⟨1, some (daysFromCivil 2024 2 20), 10⟩]

/-- The single `FPD_rate_trend` row produced by the `exFpd` fixture. -/
def exFpd_group : FpdGroup := ⟨0, 12 * 2024, 12 * 2024 + 1, 1, 1, 0, some 100, some 0⟩

/-- The payment row of `exFpd_ps` after the company merge. -/
def exC8_pc : PaymentC := ⟨1, some (daysFromCivil 2024 2 20), 10, some 0⟩

/-- The January 2024 schedule row of the `exFpd` fixture. -/
def exC6_row : TrendRow := ⟨1, some 0, 12 * 2024, 31, 0⟩

/-- A financed contract with a zero daily rate: its monthly expected sums
are 0, exercising the division-by-zero behaviour of the rate columns. -/
def exC3_cs : List Contract :=
  [⟨3, some 0, "FINANCED", some (daysFromCivil 2024 1 1), some 0, 0, 0, 0, 0, 0⟩]

/-- A financed and a CASH contract, both with one January-2024 schedule
month of 31 USD expected. -/
def exC4_A : Contract :=
  ⟨41, some 0, "FINANCED", some (daysFromCivil 2024 1 1), some 0, 1, 0, 100, 0, 0⟩

def exC4_B : Contract :=
  ⟨42, some 1, "CASH", some (daysFromCivil 2024 1 1), some 0, 1, 0, 200, 1, 1⟩

def exC4_cs : List Contract := [exC4_A, exC4_B]

/-- A financed contract registered 2024-01-10 (after the cutoff day, so
FPD month = March 2024) whose 35-day tenor ends in February: its schedule
never reaches the FPD month. -/
def exC5_contract : Contract :=
  ⟨5, some 0, "FINANCED", some (daysFromCivil 2024 1 10), some 35, 1, 0, 0, 0, 0⟩

/-- Active during August 2025 only (first projection-window month). -/
def exC7_A : Contract :=
  ⟨71, some 0, "FINANCED", some (daysFromCivil 2025 7 1), some 31, 1, 0, 0, 0, 0⟩

/-- Active during October 2025 only (third projection-window month). -/
def exC7_B : Contract :=
  ⟨72, some 0, "CASH", some (daysFromCivil 2025 10 1), some 1, 1, 0, 0, 0, 0⟩

def exC7_cs : List Contract := [exC7_A, exC7_B]

/-- The worked example of the spec: 10 USD/day, registered 2024-01-01,
tenor 90 days. -/
def exC9_contract : Contract :=
  ⟨9, some 0, "FINANCED", some (daysFromCivil 2024 1 1), some 90, 10, 0, 0, 0, 0⟩

/-! ## Supporting lemmas -/

lemma count_month_range_aux : ∀ (n : ℕ) (s m : ℤ),
    (((List.range n).map (fun i : ℕ => s + (i : ℤ))).count m)
      = if s ≤ m ∧ m < s + (n : ℤ) then 1 else 0 := by
  intro n
  induction n with
  | zero =>
      intro s m
      simp only [List.range_zero, List.map_nil, List.count_nil]
      rw [if_neg (by push_cast; omega)]
  | succ k ih =>
      intro s m
      rw [List.range_succ, List.map_append, List.count_append, ih]
      simp only [List.map_cons, List.map_nil, List.count_cons, List.count_nil,
        beq_iff_eq]
      split_ifs <;> push_cast at * <;> omega

lemma count_month_range (s e m : ℤ) :
    (month_range s e).count m = if s ≤ m ∧ m ≤ e then 1 else 0 := by
  unfold month_range
  rw [count_month_range_aux]
  split_ifs with h1 h2 <;> first | rfl | (exfalso; omega)

lemma pairwise_month_range (s e : ℤ) : (month_range s e).Pairwise (· < ·) := by
  unfold month_range
  refine List.Pairwise.map (fun i : ℕ => s + (i : ℤ))
    (fun a b h => ?_) (List.pairwise_lt_range _)
  show s + (a : ℤ) < s + (b : ℤ)
  omega

lemma map_month_expected_rows (c : Contract) (s e : ℤ)
    (hs : start_month c = some s) (he : end_month c = some e) :
    (expected_rows_for c).map (fun r => r.month) = month_range s e := by
  unfold expected_rows_for
  rw [hs, he]
  rw [List.map_map]
  exact List.map_id' _

lemma sum_filter_bool_split (l : List Contract) (f : Contract → ℚ) (p q : Contract → Bool) :
    ((l.filter p).map f).sum
      = ((l.filter (fun x => p x && q x)).map f).sum
        + ((l.filter (fun x => p x && !q x)).map f).sum := by
  induction l with
  | nil => simp
  | cons c l ih =>
      cases hq : q c <;> cases hp : p c <;>
        simp [List.filter_cons, hp, hq, ih] <;> ring

lemma expected_rows_for_fields (c : Contract) (r : TrendRow)
    (h : r ∈ expected_rows_for c) :
    r.contract_id = c.contract_id ∧ r.company = c.company ∧
      r.expected_payment =
        round2 (c.daily_payment_amount_usd * (daysInMonthIdx r.month : ℚ)) := by
  unfold expected_rows_for at h
  cases hs : start_month c <;> cases he : end_month c <;> rw [hs, he] at h <;>
    simp only [List.not_mem_nil] at h
  obtain ⟨m, _, rfl⟩ := List.mem_map.mp h
  exact ⟨rfl, rfl, rfl⟩

/-! ## Claim C2 -/

/-- C2: for a contract with non-null start and end month, the generated
schedule contains exactly one row per calendar month from the registration
month to the tenor-end month inclusive (no gaps, no duplicates); a null
start or end month produces no rows. -/
theorem spec_C2_schedule_months (c : Contract) :
    (∀ s e, start_month c = some s → end_month c = some e →
      ∀ m : ℤ, ((expected_rows_for c).map (fun r => r.month)).count m
        = if s ≤ m ∧ m ≤ e then 1 else 0)
    ∧ ((start_month c = none ∨ end_month c = none) → expected_rows_for c = []) := by
  constructor
  · intro s e hs he m
    rw [map_month_expected_rows c s e hs he]
    exact count_month_range s e m
  · intro h
    unfold expected_rows_for
    cases hs : start_month c <;> cases he : end_month c <;> try rfl
    rcases h with h | h <;> simp_all

/-- Witness for C2 at the 90-day example contract: February 2024 appears
exactly once in its schedule. -/
theorem spec_C2_schedule_months_witness :
    ((expected_rows_for exC9_contract).map (fun r => r.month)).count (12 * 2024 + 1) = 1 := by
  have h := (spec_C2_schedule_months exC9_contract).1 (12 * 2024) (12 * 2024 + 2)
    (by decide) (by decide) (12 * 2024 + 1)
  rw [h, if_pos (by omega)]

/-! ## Claim C6 -/

/-- C6: every ScheduleEntry row carries
`expected_payment = round(daily_payment_amount_usd * days_in_month, 2)` of
its generating contract. -/
theorem spec_C6_expected_payment : ∀ (cs : List Contract) (ps : List Payment) (r : TrendRow),
    r ∈ trend_df_all cs ps →
    ∃ c ∈ cs, r.contract_id = c.contract_id ∧
      r.expected_payment =
        round2 (c.daily_payment_amount_usd * (daysInMonthIdx r.month : ℚ)) := by
  intro cs ps r hr
  unfold trend_df_all at hr
  obtain ⟨r0, hr0, rfl⟩ := List.mem_map.mp hr
  unfold expected_df at hr0
  obtain ⟨c, hc, hr0c⟩ := List.mem_flatMap.mp hr0
  obtain ⟨h1, _, h3⟩ := expected_rows_for_fields c r0 hr0c
  exact ⟨c, hc, h1, h3⟩

/-- Witness for C6: the January 2024 row of the `exFpd` fixture. -/
theorem spec_C6_expected_payment_witness :
    ∃ c ∈ exFpd_cs, exC6_row.contract_id = c.contract_id ∧
      exC6_row.expected_payment =
        round2 (c.daily_payment_amount_usd * (daysInMonthIdx exC6_row.month : ℚ)) :=
  spec_C6_expected_payment exFpd_cs exFpd_ps exC6_row (by decide)

/-! ## Claim C9 -/

/-- C9 counterexample: 2024 is a leap year, so 2024-01-01 + 90 days is
2024-03-31 and the code's tenor-end month is March 2024 (month index
`12*2024+2`), not April 2024 as the claim states. -/
theorem spec_C9_counterexample :
    end_month exC9_contract = some (12 * 2024 + 2) ∧
    ¬ end_month exC9_contract = some (12 * 2024 + 3) := by decide

/-- C9 amended: for the example contract (10 USD/day, registered
2024-01-01, tenor 90 days) the schedule spans January to March 2024 and
January's expected payment is 310.00 (February's is 290.00, 29 leap days). -/
theorem spec_C9_amended :
    (expected_rows_for exC9_contract).map (fun r => (r.month, r.expected_payment))
      = [(12 * 2024, 310), (12 * 2024 + 1, 290), (12 * 2024 + 2, 310)] := by
  decide

/-! ## Claim C8 -/

/-- C8: the company propagation onto payment rows behaves exactly as the
spec describes: retrying the merge from scratch with only the
`contract_id` and `company` columns recomputes the identical left join,
so the conditional retry coincides with the single join the code
performs, and every merged row carries the company looked up from its
contract. -/
theorem spec_C8_company_retry : ∀ (ps : List Payment) (cs : List Contract),
    payments_with_company_retry ps cs = payments_with_company ps cs ∧
    ∀ p ∈ payments_with_company ps cs,
      p.company = (findContract cs p.contract_id).bind (fun c => c.company) := by
  intro ps cs
  constructor
  · dsimp only [payments_with_company_retry]
    split <;> rfl
  · intro p hp
    obtain ⟨q, hq, rfl⟩ := List.mem_map.mp hp
    rfl

/-- Witness for C8 at the `exFpd` fixture payment. -/
theorem spec_C8_company_retry_witness :
    exC8_pc.company = (findContract exFpd_cs exC8_pc.contract_id).bind (fun c => c.company) :=
  (spec_C8_company_retry exFpd_ps exFpd_cs).2 exC8_pc (by decide)

/-! ## Claim C3 -/

/-- C3 counterexample: a financed contract with a zero daily rate gives a
`(company, month)` group whose summed expected payment is 0; the
collection-rate column of that group is `NaN` (modelled `none`), not 0. -/
theorem spec_C3_counterexample :
    (trend_summary exC3_cs []).map (fun s => s.rate) = [none] ∧
    (none : Option ℚ) ≠ some 0 := by
  constructor
  · decide
  · decide

/-- C3 amended: the PAR percentage columns are guarded and yield 0 on a
zero `Total_PAR`, and every emitted `FPD_rate_trend` row has a positive
contract-count denominator (so its rate is defined); but the collection
rate and repayment rate columns are unguarded and yield `NaN`/`inf`
(modelled `none`), not 0, when their denominator is 0. -/
theorem spec_C3_amended (b p : ℚ) (cs : List Contract) (ps : List Payment) :
    par_pct b 0 = 0 ∧ collection_rate p 0 = none ∧ repayment_rate p 0 = none ∧
    ∀ g ∈ FPD_rate_trend cs ps, 0 < g.contracts ∧ g.FPD_rate_val ≠ none := by
  refine ⟨?_, ?_, ?_, ?_⟩
  · unfold par_pct
    rw [if_neg (lt_irrefl 0)]
  · unfold collection_rate
    rw [if_pos rfl]
  · unfold repayment_rate
    rw [if_pos rfl]
  · intro g hg
    unfold FPD_rate_trend at hg
    obtain ⟨k, hk, rfl⟩ := List.mem_map.mp hg
    obtain ⟨f, hf, hfk⟩ := List.mem_filterMap.mp (List.mem_dedup.mp hk)
    have hmem : f ∈ (fpd_final cs ps).filter (fun f => decide (fpd_key f = some k)) :=
      List.mem_filter.mpr ⟨hf, by simp [hfk]⟩
    have hpos : 0 < ((fpd_final cs ps).filter (fun f => decide (fpd_key f = some k))).length :=
      List.length_pos.mpr (List.ne_nil_of_mem hmem)
    refine ⟨hpos, ?_⟩
    have hne : ((fpd_final cs ps).filter (fun f => decide (fpd_key f = some k))).length ≠ 0 :=
      Nat.pos_iff_ne_zero.mp hpos
    show FPD_rate _ _ ≠ none
    unfold FPD_rate
    rw [if_neg hne]
    exact Option.some_ne_none _

/-- Witness for C3 at the `exFpd` fixture, whose FPD table has one group
with one contract. -/
theorem spec_C3_amended_witness :
    par_pct 5 0 = 0 ∧ 0 < exFpd_group.contracts ∧ exFpd_group.FPD_rate_val ≠ none := by
  have h := spec_C3_amended 5 7 exFpd_cs exFpd_ps
  have hg := h.2.2.2 exFpd_group (by decide)
  exact ⟨h.1, hg.1, hg.2⟩

/-! ## Claim C4 -/

/-- C4 counterexample: a CASH contract with one schedule month of 31 USD
expected contributes nothing to the cash-flow expected-inflow sums,
because the script groups the FINANCED-filtered `trend_df`; summing over
the ScheduleEntry rows of every contract type (the claim's statement)
gives 31 for the CASH contract's group instead. -/
theorem spec_C4_counterexample :
    expected_inflow_total exC4_cs [] (1, 1, 1, 12 * 2024) = 0 ∧
    expected_inflow_total_all_types exC4_cs [] (1, 1, 1, 12 * 2024) = 31 ∧
    expected_inflow_total exC4_cs [] (1, 1, 1, 12 * 2024) ≠
      expected_inflow_total_all_types exC4_cs [] (1, 1, 1, 12 * 2024) := by
  refine ⟨by decide, by decide, by decide⟩

/-- C4 amended: the cash-flow inflow sums are computed from the
FINANCED-restricted (and months-on-book-filtered) `trend_df`, so every
aggregated row belongs to a FINANCED contract; only the disbursements are
type-agnostic (both FINANCED and non-FINANCED contracts contribute to the
disbursed amount of a group). -/
theorem spec_C4_amended (cs : List Contract) (ps : List Payment) :
    (∀ r ∈ trend_df_vintage cs ps, r.contract_id ∈ financed_contracts cs) ∧
    (∀ k, disbursed_total cs k =
      disbursed_total (financed_df cs) k +
      disbursed_total (cs.filter (fun c => decide (c.contract_type ≠ "FINANCED"))) k) := by
  constructor
  · intro r hr
    unfold trend_df_vintage at hr
    have hr2 := (List.mem_filter.mp hr).1
    unfold trend_df_fin at hr2
    exact of_decide_eq_true (List.mem_filter.mp hr2).2
  · intro k
    unfold disbursed_total financed_df
    rw [List.filter_filter, List.filter_filter]
    simp only [ne_eq, decide_not]
    exact sum_filter_bool_split cs (fun c => c.contract_value_usd)
      (fun c => decide (disb_key c = some k))
      (fun c => decide (c.contract_type = "FINANCED"))

/-- Witness for C4 at the two-contract fixture. -/
theorem spec_C4_amended_witness :
    (⟨41, some 0, 12 * 2024, 31, 0⟩ : TrendRow).contract_id ∈ financed_contracts exC4_cs ∧
    disbursed_total exC4_cs (1, 1, 1, 12 * 2024) =
      disbursed_total (financed_df exC4_cs) (1, 1, 1, 12 * 2024) +
      disbursed_total (exC4_cs.filter (fun c => decide (c.contract_type ≠ "FINANCED")))
        (1, 1, 1, 12 * 2024) := by
  have h := spec_C4_amended exC4_cs []
  exact ⟨h.1 ⟨41, some 0, 12 * 2024, 31, 0⟩ (by decide), h.2 (1, 1, 1, 12 * 2024)⟩

/-! ## Claim C7 -/

/-- C7 counterexample: with one contract active only in August 2025 and
one active only in October 2025, September produces no projection row, so
October — the 3rd month of the 12-month window — is assigned the discount
factor `(1+monthly_rate)^(-2)` (its position among the present months),
not `(1+monthly_rate)^(-3)` as the claim's window-indexed rule demands;
the two factors differ because the monthly rate is positive. -/
theorem spec_C7_counterexample :
    projection_window[2]? = some (12 * 2025 + 9) ∧
    discount_factor_at exC7_cs (12 * 2025 + 9) = some (discount_factor 2) ∧
    discount_factor 2 ≠ discount_factor 3 := by
  refine ⟨by decide, ?_, ?_⟩
  · have hm : ((monthly_projection exC7_cs).map (fun p => p.1))
        = [12 * 2025 + 7, 12 * 2025 + 9] := by decide
    unfold discount_factor_at
    rw [hm]
    rfl
  · have h1 : (1 : ℝ) < 1 + monthly_discount := by
      unfold monthly_discount
      have h : (1 : ℝ) < (1 + 0.15) ^ ((1 : ℝ) / 12) :=
        (Real.one_lt_rpow_iff_of_pos (by norm_num)).mpr (Or.inl ⟨by norm_num, by norm_num⟩)
      linarith
    have h2 : discount_factor 3 < discount_factor 2 := by
      unfold discount_factor
      rw [Real.rpow_lt_rpow_left_iff h1]
      push_cast
      norm_num
    exact ne_of_gt h2

/-- C7 amended: the code converts the 15% annual rate to the monthly rate
`(1+0.15)^(1/12)-1` and discounts the i-th *present* projection month
(1-indexed among months with at least one active contract; empty window
months are skipped) by `(1+monthly_rate)^(-i)`, equivalently
`1.15^(-i/12)`; the portfolio value is the sum of those discounted
monthly cash flows. -/
theorem spec_C7_amended (cs : List Contract) :
    portfolio_value cs =
      (((monthly_projection cs).enum).map (fun p =>
        ((p.2.2 : ℚ) : ℝ) * (1 + 0.15 : ℝ) ^ (-((p.1 : ℝ) + 1) / 12))).sum := by
  unfold portfolio_value
  have hf : ∀ i : ℕ, discount_factor (i + 1) = (1 + 0.15 : ℝ) ^ (-((i : ℝ) + 1) / 12) := by
    intro i
    unfold discount_factor monthly_discount
    rw [show (1 : ℝ) + ((1 + 0.15) ^ ((1 : ℝ) / 12) - 1) = (1 + 0.15) ^ ((1 : ℝ) / 12) by ring]
    rw [← Real.rpow_mul (by norm_num : (0 : ℝ) ≤ 1 + 0.15)]
    congr 1
    push_cast
    ring
  simp only [hf]

/-! ## Claim C1 -/

lemma consec_missed_length : ∀ (l : List TrendRow) (m : ℕ),
    (consec_missed l m).length = l.length := by
  intro l
  induction l with
  | nil => intro m; rfl
  | cons r rs ih => intro m; simp [consec_missed, ih]

lemma consec_missed_getElem_zero (l : List TrendRow) (m : ℕ) (r0 : TrendRow)
    (h : l[0]? = some r0) :
    (consec_missed l m)[0]? =
      some (if r0.total_paid < r0.expected_payment then m + 1 else 0) := by
  cases l with
  | nil => simp at h
  | cons r rs =>
      simp only [List.getElem?_cons_zero, Option.some.injEq] at h
      subst h
      simp [consec_missed]

lemma consec_missed_getElem_succ : ∀ (l : List TrendRow) (m i : ℕ) (ri : TrendRow) (ci : ℕ),
    l[i + 1]? = some ri → (consec_missed l m)[i]? = some ci →
    (consec_missed l m)[i + 1]? =
      some (if ri.total_paid < ri.expected_payment then ci + 1 else 0) := by
  intro l
  induction l with
  | nil => intro m i ri ci h1 _; simp at h1
  | cons r rs ih =>
      intro m i ri ci h1 h2
      simp only [consec_missed] at h2 ⊢
      cases i with
      | zero =>
          simp only [List.getElem?_cons_succ, List.getElem?_cons_zero,
            Option.some.injEq] at h1 h2 ⊢
          subst h2
          exact (consec_missed_getElem_zero rs _ ri h1).trans rfl
      | succ j =>
          simp only [List.getElem?_cons_succ] at h1 h2 ⊢
          exact ih _ j ri ci h1 h2

lemma pairwise_month_expected_rows (c : Contract) :
    (expected_rows_for c).Pairwise (fun a b => a.month < b.month) := by
  unfold expected_rows_for
  cases hs : start_month c <;> cases he : end_month c <;> try exact List.Pairwise.nil
  exact List.pairwise_map.mpr ((pairwise_month_range _ _).imp (fun h => h))

lemma pairwise_trend_df_all (cs : List Contract) (ps : List Payment)
    (h : (cs.map Contract.contract_id).Nodup) :
    (trend_df_all cs ps).Pairwise
      (fun a b => a.contract_id = b.contract_id → a.month < b.month) := by
  unfold trend_df_all
  refine List.pairwise_map.mpr ?_
  unfold expected_df
  refine List.pairwise_flatMap.mpr ⟨?_, ?_⟩
  · intro c _
    refine (pairwise_month_expected_rows c).imp ?_
    intro a b hlt
    exact fun _ => hlt
  · have hne : cs.Pairwise (fun c1 c2 => c1.contract_id ≠ c2.contract_id) :=
      List.pairwise_map.mp h
    refine hne.imp ?_
    intro c1 c2 hne12 x hx y hy hxy
    exfalso
    obtain ⟨hx1, _, _⟩ := expected_rows_for_fields c1 x hx
    obtain ⟨hy1, _, _⟩ := expected_rows_for_fields c2 y hy
    exact hne12 (by rw [← hx1, ← hy1]; exact hxy)

lemma pairwise_contract_trend (cs : List Contract) (ps : List Payment) (cid : ℕ)
    (h : (cs.map Contract.contract_id).Nodup) :
    (contract_trend cs ps cid).Pairwise (fun a b => a.month < b.month) := by
  have h1 := (pairwise_trend_df_all cs ps h).filter
    (fun r => decide (r.contract_id ∈ financed_contracts cs))
  have h2 := h1.filter (fun r => decide (r.contract_id = cid))
  refine List.Pairwise.imp_of_mem ?_ h2
  intro a b ha hb hab
  have ha2 : a.contract_id = cid := of_decide_eq_true (List.mem_filter.mp ha).2
  have hb2 : b.contract_id = cid := of_decide_eq_true (List.mem_filter.mp hb).2
  exact hab (ha2.trans hb2.symm)

lemma par_bucket_table (n : ℕ) :
    (par_bucket n = "Current" ↔ n = 0) ∧ (par_bucket n = "PAR30" ↔ n = 1)
    ∧ (par_bucket n = "PAR60" ↔ n = 2) ∧ (par_bucket n = "PAR90" ↔ n = 3)
    ∧ (par_bucket n = "PAR120" ↔ 4 ≤ n) := by
  refine ⟨⟨?_, ?_⟩, ⟨?_, ?_⟩, ⟨?_, ?_⟩, ⟨?_, ?_⟩, ⟨?_, ?_⟩⟩ <;> intro hh <;>
    first
      | (unfold par_bucket at hh; split_ifs at hh <;>
          first | omega | (exact absurd hh (by decide)))
      | (subst hh; rfl)
      | (unfold par_bucket; rw [if_pos hh])

/-- C1: walking one contract's (month-ordered) financed schedule rows, the
consecutive-miss counter starts by treating the first month as a miss or
not, resets to 0 on any month whose `total_paid` meets or exceeds
`expected_payment` and increments by 1 otherwise, and each month's PAR
bucket is derived from the counter by 0→Current, 1→PAR30, 2→PAR60,
3→PAR90, ≥4→PAR120. -/
theorem spec_C1_par_counter (cs : List Contract) (ps : List Payment)
    (h : (cs.map Contract.contract_id).Nodup) (cid : ℕ) :
    (contract_consec cs ps cid).length = (contract_trend cs ps cid).length
    ∧ (contract_trend cs ps cid).Pairwise (fun a b => a.month < b.month)
    ∧ (∀ r0, (contract_trend cs ps cid)[0]? = some r0 →
        (contract_consec cs ps cid)[0]? =
          some (if r0.total_paid < r0.expected_payment then 0 + 1 else 0))
    ∧ (∀ i ri ci, (contract_trend cs ps cid)[i + 1]? = some ri →
        (contract_consec cs ps cid)[i]? = some ci →
        (contract_consec cs ps cid)[i + 1]? =
          some (if ri.total_paid < ri.expected_payment then ci + 1 else 0))
    ∧ contract_par_buckets cs ps cid = (contract_consec cs ps cid).map par_bucket
    ∧ (∀ n : ℕ, (par_bucket n = "Current" ↔ n = 0) ∧ (par_bucket n = "PAR30" ↔ n = 1)
        ∧ (par_bucket n = "PAR60" ↔ n = 2) ∧ (par_bucket n = "PAR90" ↔ n = 3)
        ∧ (par_bucket n = "PAR120" ↔ 4 ≤ n)) := by
  refine ⟨consec_missed_length _ _, pairwise_contract_trend cs ps cid h, ?_, ?_, rfl, ?_⟩
  · intro r0 h0
    exact consec_missed_getElem_zero _ 0 r0 h0
  · intro i ri ci h1 h2
    exact consec_missed_getElem_succ _ 0 i ri ci h1 h2
  · intro n
    exact par_bucket_table n

/-- Witness for C1 at the `exFpd` fixture: the second schedule month
(February 2024, 10 paid against 29 expected) is a miss, so the counter
steps from 1 to 2 and lands in the PAR60 bucket. -/
theorem spec_C1_par_counter_witness :
    (contract_consec exFpd_cs exFpd_ps 1)[1]? = some 2 ∧ par_bucket 2 = "PAR60" := by
  have h := spec_C1_par_counter exFpd_cs exFpd_ps (by decide) 1
  have h4 := h.2.2.2.1 0 (⟨1, some 0, 12 * 2024 + 1, 29, 10⟩ : TrendRow) 1
    (by decide) (by decide)
  constructor
  · rw [h4, if_pos (by norm_num)]
  · exact (h.2.2.2.2.2 2).2.2.1.mpr rfl

/-! ## FPD join lemmas (claims C5, C10) -/

lemma find?_by_id : ∀ (l : List Contract), ((l.map Contract.contract_id).Nodup) →
    ∀ (c : Contract), c ∈ l → ∀ (p : Contract → Bool), p c = true →
    (∀ x, p x = true → x.contract_id = c.contract_id) →
    l.find? p = some c := by
  intro l
  induction l with
  | nil => intro _ c hc; cases hc
  | cons d l ih =>
      intro h c hc p hp hid
      rw [List.map_cons, List.nodup_cons] at h
      cases hd : p d with
      | false =>
          rw [List.find?_cons_of_neg _ (by simp [hd])]
          rcases List.mem_cons.mp hc with rfl | hc2
          · rw [hp] at hd; cases hd
          · exact ih h.2 c hc2 p hp hid
      | true =>
          rw [List.find?_cons_of_pos _ hd]
          rcases List.mem_cons.mp hc with rfl | hc2
          · rfl
          · exfalso
            have hde : d.contract_id = c.contract_id := hid d hd
            exact h.1 (by rw [hde]; exact List.mem_map_of_mem _ hc2)

lemma findContract_eq (cs : List Contract) (h : (cs.map Contract.contract_id).Nodup)
    (c : Contract) (hc : c ∈ cs) : findContract cs c.contract_id = some c :=
  find?_by_id cs h c hc _ (decide_eq_true rfl) (fun _ hx => of_decide_eq_true hx)

lemma financed_ids_nodup (cs : List Contract) (h : (cs.map Contract.contract_id).Nodup) :
    ((financed_df cs).map Contract.contract_id).Nodup :=
  List.Pairwise.sublist (List.Sublist.map _ (List.filter_sublist cs)) h

lemma mem_trend_all_src (cs : List Contract) (ps : List Payment) (r : TrendRow)
    (hr : r ∈ trend_df_all cs ps) :
    ∃ c ∈ cs, r.contract_id = c.contract_id ∧ r.company = c.company := by
  unfold trend_df_all at hr
  obtain ⟨r0, hr0, rfl⟩ := List.mem_map.mp hr
  unfold expected_df at hr0
  obtain ⟨c, hc, hr0c⟩ := List.mem_flatMap.mp hr0
  obtain ⟨h1, h2, _⟩ := expected_rows_for_fields c r0 hr0c
  exact ⟨c, hc, h1, h2⟩

lemma vintage_sub_all (cs : List Contract) (ps : List Payment) (r : TrendRow)
    (hr : r ∈ trend_df_vintage cs ps) : r ∈ trend_df_all cs ps := by
  unfold trend_df_vintage at hr
  have h1 := (List.mem_filter.mp hr).1
  unfold trend_df_fin at h1
  exact (List.mem_filter.mp h1).1

lemma fpd_expected_char (cs : List Contract) (ps : List Payment)
    (h : (cs.map Contract.contract_id).Nodup)
    (c : Contract) (hc : c ∈ cs) (hf : c.contract_type = "FINANCED") (e : FpdExpRow) :
    (e ∈ fpd_expected cs ps ∧ e.contract_id = c.contract_id) ↔
      (∃ r ∈ trend_df_vintage cs ps, r.contract_id = c.contract_id ∧
        get_fpd_month c.registration_date = some r.month ∧
        e = ⟨r.contract_id, r.expected_payment, r.company, c.registration_date, r.month⟩) := by
  constructor
  · rintro ⟨he, hecid⟩
    unfold fpd_expected at he
    obtain ⟨r, hr, hre⟩ := List.mem_filterMap.mp he
    cases hfind : (financed_df cs).find? (fun x =>
        decide (x.contract_id = r.contract_id ∧ x.company = r.company)) with
    | none => rw [hfind] at hre; cases hre
    | some c2 =>
        rw [hfind] at hre
        dsimp only at hre
        by_cases hm : get_fpd_month c2.registration_date = some r.month
        · rw [if_pos hm] at hre
          injection hre with hre
          subst hre
          have hrcid : r.contract_id = c.contract_id := hecid
          have hc2cs : c2 ∈ cs := (List.mem_filter.mp (List.mem_of_find?_eq_some hfind)).1
          have hcid2 : c2.contract_id = r.contract_id := by
            have hp := List.find?_some hfind
            simp only [decide_eq_true_eq] at hp
            exact hp.1
          have hc2c : c2 = c :=
            List.inj_on_of_nodup_map h hc2cs hc (hcid2.trans hrcid)
          subst hc2c
          exact ⟨r, hr, hrcid, hm, rfl⟩
        · rw [if_neg hm] at hre; cases hre
  · rintro ⟨r, hr, hrcid, hfpd, rfl⟩
    have hrcomp : r.company = c.company := by
      obtain ⟨c3, hc3, h1, h2⟩ := mem_trend_all_src cs ps r (vintage_sub_all cs ps r hr)
      have hc3c : c3 = c := List.inj_on_of_nodup_map h hc3 hc (by rw [← h1, hrcid])
      subst hc3c
      exact h2
    constructor
    · unfold fpd_expected
      refine List.mem_filterMap.mpr ⟨r, hr, ?_⟩
      have hfind : (financed_df cs).find? (fun x =>
          decide (x.contract_id = r.contract_id ∧ x.company = r.company)) = some c := by
        refine find?_by_id (financed_df cs) (financed_ids_nodup cs h) c
          (List.mem_filter.mpr ⟨hc, decide_eq_true hf⟩) _
          (decide_eq_true ⟨hrcid.symm, hrcomp.symm⟩) ?_
        intro x hx
        rw [(of_decide_eq_true hx).1, hrcid]
      rw [hfind]
      dsimp only
      rw [if_pos hfpd]
    · exact hrcid

lemma fpd_total_paid_eq (cs : List Contract) (ps : List Payment)
    (h : (cs.map Contract.contract_id).Nodup)
    (c : Contract) (hc : c ∈ cs) (hf : c.contract_type = "FINANCED") :
    fpd_total_paid cs ps c.contract_id =
      ((ps.filter (fun p => decide (p.contract_id = c.contract_id ∧
          p.pay_month.map monthIdxOfDay ≠ none ∧
          p.pay_month.map monthIdxOfDay = get_fpd_month c.registration_date))).map
        (fun p => p.total_paid)).sum := by
  unfold fpd_total_paid fpd_payments
  rw [List.filter_filter]
  unfold payments_with_company
  rw [List.filter_map, List.map_map]
  have hmapfn : ((fun q : PaymentC => q.total_paid) ∘ (fun p : Payment =>
      (⟨p.contract_id, p.pay_month, p.total_paid,
        (findContract cs p.contract_id).bind (fun c => c.company)⟩ : PaymentC)))
      = fun p : Payment => p.total_paid := rfl
  rw [hmapfn]
  refine congrArg (fun l : List Payment => (l.map (fun p => p.total_paid)).sum) ?_
  refine List.filter_congr ?_
  intro p _
  simp only [Function.comp_apply]
  by_cases hcid : p.contract_id = c.contract_id
  · have hbind : (findContract cs c.contract_id).bind (fun x => x.company) = c.company := by
      rw [findContract_eq cs h c hc]
      rfl
    have hfind : (financed_df cs).find? (fun x =>
        decide (x.contract_id = c.contract_id) && decide (x.company = c.company)) = some c := by
      refine find?_by_id (financed_df cs) (financed_ids_nodup cs h) c
        (List.mem_filter.mpr ⟨hc, decide_eq_true hf⟩) _ (by simp) ?_
      intro x hx
      rw [Bool.and_eq_true] at hx
      exact of_decide_eq_true hx.1
    simp [pay_month_idx, hcid, hbind, hfind]
  · simp [hcid]

lemma fpd_final_char (cs : List Contract) (ps : List Payment)
    (h : (cs.map Contract.contract_id).Nodup)
    (c : Contract) (hc : c ∈ cs) (hf : c.contract_type = "FINANCED") (f : FpdRow) :
    (f ∈ fpd_final cs ps ∧ f.contract_id = c.contract_id) ↔
      (∃ r ∈ trend_df_vintage cs ps, r.contract_id = c.contract_id ∧
        get_fpd_month c.registration_date = some r.month ∧
        f = ⟨r.contract_id, r.expected_payment, r.company,
              c.registration_date.map monthIdxOfDay, r.month,
              fpd_total_paid cs ps r.contract_id,
              decide (fpd_total_paid cs ps r.contract_id < r.expected_payment),
              decide (fpd_total_paid cs ps r.contract_id = 0)⟩) := by
  unfold fpd_final
  constructor
  · rintro ⟨hm, hcid⟩
    obtain ⟨e, he, rfl⟩ := List.mem_map.mp hm
    obtain ⟨r, hr, h1, h2, rfl⟩ :=
      (fpd_expected_char cs ps h c hc hf e).mp ⟨he, hcid⟩
    exact ⟨r, hr, h1, h2, rfl⟩
  · rintro ⟨r, hr, h1, h2, rfl⟩
    have hmem :=
      (fpd_expected_char cs ps h c hc hf
        ⟨r.contract_id, r.expected_payment, r.company, c.registration_date, r.month⟩).mpr
        ⟨r, hr, h1, h2, rfl⟩
    exact ⟨List.mem_map.mpr ⟨_, hmem.1, rfl⟩, h1⟩

/-! ## Claim C10 -/

/-- C10: a FINANCED contract appears in the FPD table exactly when the
vintage-filtered schedule has a row at its FPD month; only FINANCED
contracts appear; and each `FPD_rate_trend` row's contract-count
denominator is the number of such FPD-table rows in its group — so
contracts without that schedule row are excluded from both the numerator
and the denominator. -/
theorem spec_C10_fpd_scope (cs : List Contract) (ps : List Payment)
    (h : (cs.map Contract.contract_id).Nodup) :
    (∀ c ∈ cs, c.contract_type = "FINANCED" →
      ((∃ f ∈ fpd_final cs ps, f.contract_id = c.contract_id) ↔
        (∃ r ∈ trend_df_vintage cs ps, r.contract_id = c.contract_id ∧
          get_fpd_month c.registration_date = some r.month)))
    ∧ (∀ f ∈ fpd_final cs ps, f.contract_id ∈ financed_contracts cs)
    ∧ (∀ g ∈ FPD_rate_trend cs ps,
        g.contracts = ((fpd_final cs ps).filter
          (fun f => decide (fpd_key f = some (g.company, g.reg_month, g.fpd_month)))).length) := by
  refine ⟨?_, ?_, ?_⟩
  · intro c hc hf
    constructor
    · rintro ⟨f, hf2, hcid⟩
      obtain ⟨r, hr, h1, h2, _⟩ := (fpd_final_char cs ps h c hc hf f).mp ⟨hf2, hcid⟩
      exact ⟨r, hr, h1, h2⟩
    · rintro ⟨r, hr, h1, h2⟩
      have hmem := (fpd_final_char cs ps h c hc hf _).mpr ⟨r, hr, h1, h2, rfl⟩
      exact ⟨_, hmem.1, hmem.2⟩
  · intro f hf2
    unfold fpd_final at hf2
    obtain ⟨e, he, rfl⟩ := List.mem_map.mp hf2
    unfold fpd_expected at he
    obtain ⟨r, hr, hre⟩ := List.mem_filterMap.mp he
    cases hfind : (financed_df cs).find? (fun x =>
        decide (x.contract_id = r.contract_id ∧ x.company = r.company)) with
    | none => rw [hfind] at hre; cases hre
    | some c2 =>
        rw [hfind] at hre
        dsimp only at hre
        by_cases hm : get_fpd_month c2.registration_date = some r.month
        · rw [if_pos hm] at hre
          injection hre with hre
          subst hre
          have hc2 : c2 ∈ financed_df cs := List.mem_of_find?_eq_some hfind
          have hcid2 : c2.contract_id = r.contract_id := by
            have hp := List.find?_some hfind
            simp only [decide_eq_true_eq] at hp
            exact hp.1
          show r.contract_id ∈ financed_contracts cs
          rw [← hcid2]
          exact List.mem_map_of_mem _ hc2
        · rw [if_neg hm] at hre; cases hre
  · intro g hg
    unfold FPD_rate_trend at hg
    obtain ⟨k, _, rfl⟩ := List.mem_map.mp hg
    rfl

/-- Witness for C10 at the `exFpd` fixture: the contract is in the FPD
table, so the equivalence yields its vintage-schedule row at the FPD
month. -/
theorem spec_C10_fpd_scope_witness :
    ∃ r ∈ trend_df_vintage exFpd_cs exFpd_ps, r.contract_id = exFpd_contract.contract_id ∧
      get_fpd_month exFpd_contract.registration_date = some r.month := by
  have h := (spec_C10_fpd_scope exFpd_cs exFpd_ps (by decide)).1 exFpd_contract
    (by decide) rfl
  refine h.mp ⟨⟨1, 29, some 0, some (12 * 2024), 12 * 2024 + 1, 10, true, false⟩, ?_, rfl⟩
  decide

/-! ## Claim C5 -/

/-- C5 counterexample: a FINANCED contract registered 2024-01-10 with a
35-day tenor has FPD month March 2024, but its schedule ends in February,
so it appears in no FPD row at all; with no payments its FPD-month
payment sum is 0, yet it is not flagged FPD-zero — refuting "flagged
FPD-zero exactly when that sum is exactly 0" as stated. -/
theorem spec_C5_counterexample :
    exC5_contract.contract_type = "FINANCED" ∧
    exC5_contract.registration_date ≠ none ∧
    ¬ ((∃ f ∈ fpd_final [exC5_contract] [], f.contract_id = exC5_contract.contract_id ∧
          f.FPD_zero_flag = true) ↔
        fpd_total_paid [exC5_contract] [] exC5_contract.contract_id = 0) := by
  refine ⟨rfl, by decide, by decide⟩

/-- C5 amended: for every FINANCED contract with a non-null registration
date, the FPD month is the next calendar month when the registration day
is at most the cutoff day 5 and the month after next otherwise; the
FPD-month payment sum is the sum of the contract's payments whose month
equals the FPD month; and the contract is flagged FPD (resp. FPD-zero)
exactly when its vintage-filtered schedule contains a row at the FPD
month and that sum is strictly below the row's expected payment (resp. is
exactly 0).  A contract with no such schedule row is never flagged. -/
theorem spec_C5_fpd_amended (cs : List Contract) (ps : List Payment)
    (h : (cs.map Contract.contract_id).Nodup) :
    ∀ c ∈ cs, c.contract_type = "FINANCED" → ∀ rd, c.registration_date = some rd →
    (get_fpd_month c.registration_date =
      some (monthIdxOfDay rd + (if dayOfMonth rd ≤ FPD_CUTOFF_DAY then 1 else 2)))
    ∧ (fpd_total_paid cs ps c.contract_id =
        ((ps.filter (fun p => decide (p.contract_id = c.contract_id ∧
            p.pay_month.map monthIdxOfDay ≠ none ∧
            p.pay_month.map monthIdxOfDay = get_fpd_month c.registration_date))).map
          (fun p => p.total_paid)).sum)
    ∧ ((∃ f ∈ fpd_final cs ps, f.contract_id = c.contract_id ∧ f.FPD_flag = true) ↔
        (∃ r ∈ trend_df_vintage cs ps, r.contract_id = c.contract_id ∧
          get_fpd_month c.registration_date = some r.month ∧
          fpd_total_paid cs ps c.contract_id < r.expected_payment))
    ∧ ((∃ f ∈ fpd_final cs ps, f.contract_id = c.contract_id ∧ f.FPD_zero_flag = true) ↔
        ((∃ r ∈ trend_df_vintage cs ps, r.contract_id = c.contract_id ∧
          get_fpd_month c.registration_date = some r.month) ∧
          fpd_total_paid cs ps c.contract_id = 0)) := by
  intro c hc hf rd hrd
  refine ⟨by rw [hrd]; rfl, fpd_total_paid_eq cs ps h c hc hf, ?_, ?_⟩
  · constructor
    · rintro ⟨f, hf2, hcid, hflag⟩
      obtain ⟨r, hr, h1, h2, rfl⟩ := (fpd_final_char cs ps h c hc hf f).mp ⟨hf2, hcid⟩
      refine ⟨r, hr, h1, h2, ?_⟩
      have := of_decide_eq_true hflag
      rw [h1] at this
      exact this
    · rintro ⟨r, hr, h1, h2, hlt⟩
      have hmem := (fpd_final_char cs ps h c hc hf _).mpr ⟨r, hr, h1, h2, rfl⟩
      refine ⟨_, hmem.1, hmem.2, ?_⟩
      show decide (fpd_total_paid cs ps r.contract_id < r.expected_payment) = true
      rw [h1]
      exact decide_eq_true hlt
  · constructor
    · rintro ⟨f, hf2, hcid, hflag⟩
      obtain ⟨r, hr, h1, h2, rfl⟩ := (fpd_final_char cs ps h c hc hf f).mp ⟨hf2, hcid⟩
      have := of_decide_eq_true hflag
      rw [h1] at this
      exact ⟨⟨r, hr, h1, h2⟩, this⟩
    · rintro ⟨⟨r, hr, h1, h2⟩, hz⟩
      have hmem := (fpd_final_char cs ps h c hc hf _).mpr ⟨r, hr, h1, h2, rfl⟩
      refine ⟨_, hmem.1, hmem.2, ?_⟩
      show decide (fpd_total_paid cs ps r.contract_id = 0) = true
      rw [h1]
      exact decide_eq_true hz

/-- Witness for C5 at the `exFpd` fixture: the contract is flagged FPD,
via the amended equivalence, from its February 2024 schedule row (10 paid
against 29 expected). -/
theorem spec_C5_fpd_amended_witness :
    ∃ f ∈ fpd_final exFpd_cs exFpd_ps, f.contract_id = exFpd_contract.contract_id ∧
      f.FPD_flag = true := by
  have h := spec_C5_fpd_amended exFpd_cs exFpd_ps (by decide) exFpd_contract
    (by decide) rfl (daysFromCivil 2024 1 3) rfl
  refine h.2.2.1.mpr ⟨⟨1, some 0, 12 * 2024 + 1, 29, 10⟩, ?_, rfl, ?_, ?_⟩
  · decide
  · decide
  · decide
